import Mathlib

/-!
Shallow embedding of `core/static/core/student_activity.js` (student activity
tracker): in-memory event queue, per-minute rate limiting, batching/flushing
with payload trimming, failure requeue with backoff, heartbeat and task
context management.  Times are modelled as `Int` milliseconds (the value of
`Date.now()`); environment-supplied strings (ISO timestamp, page path, user
agent) and the two effectful primitives (payload byte sizing, the network
request) are passed in as explicit parameters.
-/

namespace StudentActivity

/-- JSON-like values, enough to represent event payloads and serialized
event objects. -/
inductive JsValue where
  | str : String → JsValue
  | num : Int → JsValue
  | null : JsValue
  | obj : List (String × JsValue) → JsValue

/-- JavaScript truthiness for the `JsValue` fragment we model. -/
def jsTruthy : JsValue → Bool
  | .str s => s != ""
  | .num n => n != 0
  | .null => false
  | .obj _ => true

/-- Models the defaulting of a falsy payload argument to the empty object
(payload or-else empty). -/
def jsOr : Option JsValue → JsValue
  | some v => if jsTruthy v then v else .obj []
  | none => .obj []

/-- JavaScript truthiness of a nullable string: null and the empty string
are falsy. -/
def jsTruthyStr : Option String → Bool
  | none => false
  | some s => s != ""

/-- Serialization of a nullable string field (`null` for `none`). -/
def jsOfOptStr : Option String → JsValue
  | none => .null
  | some s => .str s

/-- Models `Math.round(d / 1000)` for an integer millisecond delta `d`:
`Math.round x = ⌊x + 1/2⌋`, so the result is `⌊(d + 500) / 1000⌋`. -/
def jsRound1000 (d : Int) : Int := Int.fdiv (d + 500) 1000

/-- Config constant `FLUSH_INTERVAL_MS` (line 15 of the source). -/
def FLUSH_INTERVAL_MS : Nat := 5000

/-- Config constant `MAX_BATCH_SIZE` (line 16 of the source). -/
def MAX_BATCH_SIZE : Nat := 30

/-- Config constant `HEARTBEAT_SEC` (line 17 of the source). -/
def HEARTBEAT_SEC : Nat := 10

/-- Config constant `MAX_PAYLOAD_BYTES` (line 18 of the source). -/
def MAX_PAYLOAD_BYTES : Nat := 30000

/-- The anti-spam counters object (lines 32-38 of the source). -/
structure Counters where
  copy : Nat
  paste : Nat
  cut : Nat
  tab_hidden : Nat
  blur : Nat

/-- The freshly reset counters object: all five per-type counters at zero. -/
def freshCounters : Counters :=
  { copy := 0, paste := 0, cut := 0, tab_hidden := 0, blur := 0 }

/-- An event record as constructed by `pushEvent` (lines 66-74). -/
structure Event where
  ts : String
  type : String
  task_id : Option String
  session_id : Option String
  payload : JsValue
  page : String
  ua : String

/-- The module-level mutable state (lines 21-38): context, queue, timers and
rate-limit window.  Timers are modelled by the delay (in ms) they were
scheduled with (`none` = no timer pending); the heartbeat interval by a
Boolean. -/
structure TrackerState where
  currentTaskId : Option String
  currentSessionId : Option String
  lastTaskOpenedAt : Int
  queue : List Event
  lastFlushAt : Int
  flushTimer : Option Nat
  heartbeatTimer : Bool
  minuteWindowStart : Int
  counters : Counters

/-- `resetMinuteWindowIfNeeded` (lines 44-50): when at least 60000 ms have
elapsed since the window start, reset the window start to `now` and all
counters to zero. -/
def resetMinuteWindowIfNeeded (now : Int) (s : TrackerState) : TrackerState :=
  if now - s.minuteWindowStart ≥ 60000 then
    { s with minuteWindowStart := now, counters := freshCounters }
  else s

/-- The anti-spam cap checks of `pushEvent` (lines 60-64).  Each capped type
post-increments its counter and the event is dropped when the old counter
value already exceeded the threshold; all other types are always admitted
and touch no counter.  Returns (admitted?, updated counters). -/
def rateLimitCheck (type : String) (c : Counters) : Bool × Counters :=
  if type == "copy" then (!decide (c.copy > 40), { c with copy := c.copy + 1 })
  else if type == "paste" then (!decide (c.paste > 60), { c with paste := c.paste + 1 })
  else if type == "cut" then (!decide (c.cut > 40), { c with cut := c.cut + 1 })
  else if type == "tab_hidden" then (!decide (c.tab_hidden > 30), { c with tab_hidden := c.tab_hidden + 1 })
  else if type == "blur" then (!decide (c.blur > 60), { c with blur := c.blur + 1 })
  else (true, c)

/-- Whether an event type is one of the five capped types. -/
def isCapped (type : String) : Bool :=
  type == "copy" || type == "paste" || type == "cut" ||
    type == "tab_hidden" || type == "blur"

/-- The JSON object for an event as it sits in the queue and is sent in the
untrimmed payload (field order of lines 66-74). -/
def eventJson (e : Event) : List (String × JsValue) :=
  [("ts", .str e.ts), ("type", .str e.type), ("task_id", jsOfOptStr e.task_id),
   ("session_id", jsOfOptStr e.session_id), ("payload", e.payload),
   ("page", .str e.page), ("ua", .str e.ua)]

/-- The trimmed JSON object for an event (the map at lines 100-107): keeps
`ts`, `type`, `task_id`, `session_id`, `page` and replaces `payload` with
the fixed marker object whose single field note holds the string trimmed.
Note the `ua` field is not kept. -/
def trimmedEventJson (e : Event) : List (String × JsValue) :=
  [("ts", .str e.ts), ("type", .str e.type), ("task_id", jsOfOptStr e.task_id),
   ("session_id", jsOfOptStr e.session_id),
   ("payload", .obj [("note", .str "trimmed")]), ("page", .str e.page)]

/-- `approxByteSize` (lines 84-90): the effectful
`new Blob([JSON.stringify(obj)]).size` is an oracle `sizer` that may fail;
a failure is caught and reported as size 0. -/
def approxByteSize (sizer : List Event → Except String Nat) (batch : List Event) : Nat :=
  match sizer batch with
  | .ok n => n
  | .error _ => 0

/-- The `catch` branch of `flush` (lines 126-132): prepend the removed batch
back onto the front of the queue, clear any pending flush timer, and
schedule a flush after the 9000 ms backoff. -/
def flushOnFetchError (batch : List Event) (s : TrackerState) : TrackerState :=
  let s1 := { s with queue := batch ++ s.queue }
  let s2 := if s1.flushTimer.isSome then { s1 with flushTimer := none } else s1
  { s2 with flushTimer := some 9000 }

/-- The synchronous head of `flush` (lines 92-110): empty-queue early return,
removal of up to `MAX_BATCH_SIZE` events from the queue front, the payload
trim decision, and recording `lastFlushAt`.  Returns the removed batch and
the serialized `events` list alongside the updated state (`none` when the
queue was empty). -/
def flushPrepare (now : Int) (sizer : List Event → Except String Nat)
    (s : TrackerState) :
    Option (List Event × List (List (String × JsValue))) × TrackerState :=
  if s.queue.isEmpty then (none, s)
  else
    let batch := s.queue.take MAX_BATCH_SIZE
    let events :=
      if approxByteSize sizer batch > MAX_PAYLOAD_BYTES then
        batch.map trimmedEventJson
      else
        batch.map eventJson
    (some (batch, events),
     { s with queue := s.queue.drop MAX_BATCH_SIZE, lastFlushAt := now })

/-- `flush` (lines 92-133).  `useBeacon`/`beaconAvail` select the
fire-and-forget path; `fetchRes` is the outcome of the awaited network
request (`Except.error` models an exception or rejected promise, which the
`catch` handler absorbs by requeueing and scheduling the backoff flush).
Also returns the serialized `events` list of the attempted request, when
one was made. -/
def flush (useBeacon beaconAvail : Bool) (now : Int)
    (sizer : List Event → Except String Nat) (fetchRes : Except String Unit)
    (s : TrackerState) :
    TrackerState × Option (List (List (String × JsValue))) :=
  match flushPrepare now sizer s with
  | (none, s1) => (s1, none)
  | (some (batch, events), s1) =>
    if useBeacon && beaconAvail then (s1, some events)
    else
      match fetchRes with
      | .ok _ => (s1, some events)
      | .error _ => (flushOnFetchError batch s1, some events)

/-- The tail of `pushEvent` after the cap checks admit the event
(lines 66-81): construct the record, append it, schedule a flush after
`FLUSH_INTERVAL_MS` when none is pending, and flush immediately when the
queue reaches `MAX_BATCH_SIZE`. -/
def enqueueEvent (now : Int) (ts page ua : String) (type : String)
    (payload : Option JsValue) (sizer : List Event → Except String Nat)
    (fetchRes : Except String Unit) (s : TrackerState) : TrackerState :=
  let ev : Event :=
    { ts := ts, type := type, task_id := s.currentTaskId,
      session_id := s.currentSessionId, payload := jsOr payload,
      page := page, ua := ua }
  let s1 := { s with queue := s.queue ++ [ev] }
  let s2 :=
    if s1.flushTimer.isNone then { s1 with flushTimer := some FLUSH_INTERVAL_MS }
    else s1
  if s2.queue.length ≥ MAX_BATCH_SIZE then
    (flush false false now sizer fetchRes s2).1
  else s2

/-- `pushEvent` (lines 56-82): reset the rate-limit window if needed, run the
cap checks, and when admitted append the event and drive the flush
scheduling. -/
def pushEvent (now : Int) (ts page ua : String) (type : String)
    (payload : Option JsValue) (sizer : List Event → Except String Nat)
    (fetchRes : Except String Unit) (s : TrackerState) : TrackerState :=
  let s1 := resetMinuteWindowIfNeeded now s
  let r := rateLimitCheck type s1.counters
  let s2 := { s1 with counters := r.2 }
  if r.1 then enqueueEvent now ts page ua type payload sizer fetchRes s2
  else s2

/-- `heartbeat` (lines 136-141): no-op when no task is active (falsy task
id); otherwise enqueue a `heartbeat` event whose `seconds_on_task` is the
elapsed time on the task in rounded seconds, floored at 0. -/
def heartbeat (now : Int) (ts page ua : String)
    (sizer : List Event → Except String Nat) (fetchRes : Except String Unit)
    (s : TrackerState) : TrackerState :=
  if !jsTruthyStr s.currentTaskId then s
  else
    let secondsOnTask : Int := max 0 (jsRound1000 (now - s.lastTaskOpenedAt))
    pushEvent now ts page ua "heartbeat"
      (some (.obj [("seconds_on_task", .num secondsOnTask)])) sizer fetchRes s

/-- `stopHeartbeat` (lines 148-153). -/
def stopHeartbeat (s : TrackerState) : TrackerState :=
  if s.heartbeatTimer then { s with heartbeatTimer := false } else s

/-- `startHeartbeat` (lines 143-146): stop any existing interval, then start
one. -/
def startHeartbeat (s : TrackerState) : TrackerState :=
  { stopHeartbeat s with heartbeatTimer := true }

/-- `StudentActivityTracker.setContext` (lines 157-169).  `sessionId` and
`taskId` model the destructured argument object: the outer `Option` is
presence (`typeof x !== "undefined"`), the inner `Option String` is the
possibly-null value.  A `task_switch` event is pushed only when the current
task id is truthy and differs from the new one; the task id and
task-opened timestamp are then updated, and the heartbeat restarted
unconditionally. -/
def setContext (now : Int) (ts page ua : String)
    (sizer : List Event → Except String Nat) (fetchRes : Except String Unit)
    (sessionId taskId : Option (Option String)) (s : TrackerState) :
    TrackerState :=
  let sA :=
    match sessionId with
    | some sid => { s with currentSessionId := sid }
    | none => s
  let sB :=
    match taskId with
    | some tid =>
      let sT :=
        if jsTruthyStr sA.currentTaskId && sA.currentTaskId != tid then
          let spentSec : Int := max 0 (jsRound1000 (now - sA.lastTaskOpenedAt))
          pushEvent now ts page ua "task_switch"
            (some (.obj [("from_task_id", jsOfOptStr sA.currentTaskId),
                         ("to_task_id", jsOfOptStr tid),
                         ("seconds_spent", .num spentSec)])) sizer fetchRes sA
        else sA
      { sT with currentTaskId := tid, lastTaskOpenedAt := now }
    | none => sA
  startHeartbeat sB

/-- Number of admitted events among `k` successive submissions of the same
type, threading the counters through `rateLimitCheck`. -/
def countAdmitted (type : String) : Nat → Counters → Nat
  | 0, _ => 0
  | k + 1, c =>
    let r := rateLimitCheck type c
    (if r.1 then 1 else 0) + countAdmitted type k r.2

/-!
Concrete sample values used by the witness theorems below.
-/

def ev0 : Event :=
  { ts := "2026-01-01T00:00:00.000Z", type := "copy", task_id := some "T1",
    session_id := some "S1", payload := .obj [("selection_len", .num 5)],
    page := "/task/1", ua := "UA" }

def st0 : TrackerState :=
  { currentTaskId := none, currentSessionId := none, lastTaskOpenedAt := 0,
    queue := [], lastFlushAt := 0, flushTimer := none, heartbeatTimer := false,
    minuteWindowStart := 0, counters := freshCounters }

def stQ : TrackerState := { st0 with queue := [ev0] }

def stCapped : TrackerState :=
  { st0 with counters := { freshCounters with copy := 100 } }

def okSizer : List Event → Except String Nat := fun _ => .ok 100

def bigSizer : List Event → Except String Nat := fun _ => .ok 40000

def badSizer : List Event → Except String Nat := fun _ => .error "stringify failed"

def stT : TrackerState := { st0 with currentTaskId := some "T1" }



theorem resetWindow_queue (now : Int) (s : TrackerState) :
    (resetMinuteWindowIfNeeded now s).queue = s.queue := by
  unfold resetMinuteWindowIfNeeded; split <;> rfl

theorem resetWindow_currentTaskId (now : Int) (s : TrackerState) :
    (resetMinuteWindowIfNeeded now s).currentTaskId = s.currentTaskId := by
  unfold resetMinuteWindowIfNeeded; split <;> rfl

theorem resetWindow_currentSessionId (now : Int) (s : TrackerState) :
    (resetMinuteWindowIfNeeded now s).currentSessionId = s.currentSessionId := by
  unfold resetMinuteWindowIfNeeded; split <;> rfl

theorem resetWindow_flushTimer (now : Int) (s : TrackerState) :
    (resetMinuteWindowIfNeeded now s).flushTimer = s.flushTimer := by
  unfold resetMinuteWindowIfNeeded; split <;> rfl

theorem resetWindow_of_elapsed (now : Int) (s : TrackerState)
    (h : now - s.minuteWindowStart ≥ 60000) :
    resetMinuteWindowIfNeeded now s =
      { s with minuteWindowStart := now, counters := freshCounters } := by
  unfold resetMinuteWindowIfNeeded
  exact if_pos h

theorem resetWindow_of_inWindow (now : Int) (s : TrackerState)
    (h : now - s.minuteWindowStart < 60000) :
    resetMinuteWindowIfNeeded now s = s := by
  unfold resetMinuteWindowIfNeeded
  exact if_neg (by omega)

theorem enqueueEvent_queue_small (now : Int) (ts page ua type : String)
    (payload : Option JsValue) (sizer : List Event → Except String Nat)
    (fetchRes : Except String Unit) (s : TrackerState)
    (hq : s.queue.length < 29) :
    (enqueueEvent now ts page ua type payload sizer fetchRes s).queue =
      s.queue ++ [Event.mk ts type s.currentTaskId s.currentSessionId
        (jsOr payload) page ua] := by
  simp only [enqueueEvent, List.length_append, List.length_cons,
    List.length_nil, MAX_BATCH_SIZE, ge_iff_le]
  split_ifs with h1 h2 h3 <;> first | rfl | (exfalso; simp_all; all_goals omega)

theorem enqueueEvent_flushTimer_small (now : Int) (ts page ua type : String)
    (payload : Option JsValue) (sizer : List Event → Except String Nat)
    (fetchRes : Except String Unit) (s : TrackerState)
    (hq : s.queue.length < 29) (ht : s.flushTimer = none) :
    (enqueueEvent now ts page ua type payload sizer fetchRes s).flushTimer =
      some FLUSH_INTERVAL_MS := by
  simp only [enqueueEvent, List.length_append, List.length_cons,
    List.length_nil, MAX_BATCH_SIZE, ge_iff_le, ht, Option.isNone_none, if_true]
  split_ifs with h1 <;> first | rfl | (exfalso; simp_all; all_goals omega)



theorem pushEvent_queue_of_admitted (now : Int) (ts page ua type : String)
    (payload : Option JsValue) (sizer : List Event → Except String Nat)
    (fetchRes : Except String Unit) (s : TrackerState)
    (hadm : (rateLimitCheck type (resetMinuteWindowIfNeeded now s).counters).1 = true)
    (hq : s.queue.length < 29) :
    (pushEvent now ts page ua type payload sizer fetchRes s).queue =
      s.queue ++ [Event.mk ts type s.currentTaskId s.currentSessionId
        (jsOr payload) page ua] := by
  simp only [pushEvent, hadm, if_true]
  rw [enqueueEvent_queue_small]
  · simp [resetWindow_queue, resetWindow_currentTaskId, resetWindow_currentSessionId]
  · simpa [resetWindow_queue] using hq

theorem pushEvent_queue_of_dropped (now : Int) (ts page ua type : String)
    (payload : Option JsValue) (sizer : List Event → Except String Nat)
    (fetchRes : Except String Unit) (s : TrackerState)
    (hdrop : (rateLimitCheck type (resetMinuteWindowIfNeeded now s).counters).1 = false) :
    (pushEvent now ts page ua type payload sizer fetchRes s).queue = s.queue := by
  simp only [pushEvent, hdrop]
  simp [resetWindow_queue]



/-- C2: for each capped type, within one 60-second window the first
threshold-plus-one submissions are admitted and the next is dropped
(copy: 41 admitted, 42nd dropped; paste: 61/62; cut: 41/42; tab_hidden:
31/32; blur: 61/62); in-window a copy push appends exactly when the copy
counter is still at most 40 and is a queue no-op once it exceeds 40; event
types outside the five capped ones are always admitted and touch no
counter. -/
theorem c2_rate_limit_thresholds :
    (∀ (now : Int) (ts page ua : String) (payload : Option JsValue)
        (sizer : List Event → Except String Nat) (fetchRes : Except String Unit)
        (s : TrackerState), now - s.minuteWindowStart < 60000 →
        s.queue.length < 29 →
      ((s.counters.copy ≤ 40 →
        (pushEvent now ts page ua "copy" payload sizer fetchRes s).queue =
          s.queue ++ [Event.mk ts "copy" s.currentTaskId s.currentSessionId
            (jsOr payload) page ua]) ∧
       (40 < s.counters.copy →
        (pushEvent now ts page ua "copy" payload sizer fetchRes s).queue =
          s.queue))) ∧
    (countAdmitted "copy" 41 freshCounters = 41 ∧
      countAdmitted "copy" 42 freshCounters = 41) ∧
    (countAdmitted "paste" 61 freshCounters = 61 ∧
      countAdmitted "paste" 62 freshCounters = 61) ∧
    (countAdmitted "cut" 41 freshCounters = 41 ∧
      countAdmitted "cut" 42 freshCounters = 41) ∧
    (countAdmitted "tab_hidden" 31 freshCounters = 31 ∧
      countAdmitted "tab_hidden" 32 freshCounters = 31) ∧
    (countAdmitted "blur" 61 freshCounters = 61 ∧
      countAdmitted "blur" 62 freshCounters = 61) ∧
    (∀ (type : String) (c : Counters), isCapped type = false →
      rateLimitCheck type c = (true, c)) := by
  refine ⟨?_, by decide, by decide, by decide, by decide, by decide, ?_⟩
  · intro now ts page ua payload sizer fetchRes s hwin hq
    have hr := resetWindow_of_inWindow now s hwin
    constructor
    · intro hle
      refine pushEvent_queue_of_admitted now ts page ua "copy" payload sizer
        fetchRes s ?_ hq
      rw [hr]
      simp [rateLimitCheck]
      omega
    · intro hgt
      refine pushEvent_queue_of_dropped now ts page ua "copy" payload sizer
        fetchRes s ?_
      rw [hr]
      simp [rateLimitCheck]
      omega
  · intro type c h
    simp only [isCapped, Bool.or_eq_false_iff] at h
    simp [rateLimitCheck, h.1.1.1.1, h.1.1.1.2, h.1.1.2, h.1.2, h.2]

/-- Witness for C2 at a concrete input: on a fresh state a copy push within
the window is enqueued. -/
theorem c2_witness :
    (0 : Int) - st0.minuteWindowStart < 60000 ∧ st0.queue.length < 29 ∧
    st0.counters.copy ≤ 40 ∧
    (pushEvent 0 "t" "/p" "UA" "copy" none okSizer (Except.ok ()) st0).queue =
      st0.queue ++ [Event.mk "t" "copy" st0.currentTaskId st0.currentSessionId
        (jsOr none) "/p" "UA"] :=
  ⟨by decide, by decide, by decide,
    (c2_rate_limit_thresholds.1 0 "t" "/p" "UA" none okSizer (Except.ok ()) st0
      (by decide) (by decide)).1 (by decide)⟩

/-- C3: when at least 60000 ms have passed since the window start, the
window is reset (window start becomes `now`, all five counters return to
zero) before the cap is evaluated, so a copy push is admitted and enqueued
no matter how large the counters had grown in the previous window. -/
theorem c3_window_reset :
    (∀ (now : Int) (s : TrackerState), now - s.minuteWindowStart ≥ 60000 →
      resetMinuteWindowIfNeeded now s =
        { s with minuteWindowStart := now, counters := freshCounters }) ∧
    (∀ (now : Int) (ts page ua : String) (payload : Option JsValue)
        (sizer : List Event → Except String Nat) (fetchRes : Except String Unit)
        (s : TrackerState), now - s.minuteWindowStart ≥ 60000 →
        s.queue.length < 29 →
      (pushEvent now ts page ua "copy" payload sizer fetchRes s).queue =
        s.queue ++ [Event.mk ts "copy" s.currentTaskId s.currentSessionId
          (jsOr payload) page ua]) := by
  refine ⟨resetWindow_of_elapsed, ?_⟩
  intro now ts page ua payload sizer fetchRes s hwin hq
  refine pushEvent_queue_of_admitted now ts page ua "copy" payload sizer
    fetchRes s ?_ hq
  rw [resetWindow_of_elapsed now s hwin]
  rfl

/-- Witness for C3 at a concrete input: a state whose copy counter is 100
admits a copy push again once 60000 ms have elapsed. -/
theorem c3_witness :
    (60000 : Int) - stCapped.minuteWindowStart ≥ 60000 ∧
    stCapped.counters.copy = 100 ∧
    resetMinuteWindowIfNeeded 60000 stCapped =
      { stCapped with minuteWindowStart := 60000, counters := freshCounters } ∧
    (pushEvent 60000 "t" "/p" "UA" "copy" none okSizer (Except.ok ())
        stCapped).queue =
      stCapped.queue ++ [Event.mk "t" "copy" stCapped.currentTaskId
        stCapped.currentSessionId (jsOr none) "/p" "UA"] :=
  ⟨by decide, by decide,
    c3_window_reset.1 60000 stCapped (by decide),
    c3_window_reset.2 60000 "t" "/p" "UA" none okSizer (Except.ok ()) stCapped
      (by decide) (by decide)⟩



theorem flush_error_state (now : Int) (sizer : List Event → Except String Nat)
    (err : String) (s : TrackerState) (hne : s.queue ≠ []) :
    (flush false false now sizer (Except.error err) s).1 =
      flushOnFetchError (s.queue.take MAX_BATCH_SIZE)
        { s with queue := s.queue.drop MAX_BATCH_SIZE, lastFlushAt := now } := by
  have hemp : s.queue.isEmpty = false := by
    simpa [List.isEmpty_iff] using hne
  simp [flush, flushPrepare, hemp]

theorem flush_ok_state (now : Int) (sizer : List Event → Except String Nat)
    (s : TrackerState) (hne : s.queue ≠ []) :
    (flush false false now sizer (Except.ok ()) s).1 =
      { s with queue := s.queue.drop MAX_BATCH_SIZE, lastFlushAt := now } := by
  have hemp : s.queue.isEmpty = false := by
    simpa [List.isEmpty_iff] using hne
  simp [flush, flushPrepare, hemp]

theorem flush_events_eq (now : Int) (sizer : List Event → Except String Nat)
    (fetchRes : Except String Unit) (s : TrackerState) (hne : s.queue ≠ []) :
    (flush false false now sizer fetchRes s).2 =
      some (if approxByteSize sizer (s.queue.take MAX_BATCH_SIZE) >
              MAX_PAYLOAD_BYTES then
              (s.queue.take MAX_BATCH_SIZE).map trimmedEventJson
            else (s.queue.take MAX_BATCH_SIZE).map eventJson) := by
  have hemp : s.queue.isEmpty = false := by
    simpa [List.isEmpty_iff] using hne
  cases fetchRes <;> simp [flush, flushPrepare, hemp]

theorem flushOnFetchError_fields (batch : List Event) (s : TrackerState) :
    (flushOnFetchError batch s).queue = batch ++ s.queue ∧
    (flushOnFetchError batch s).flushTimer = some 9000 ∧
    (flushOnFetchError batch s).lastFlushAt = s.lastFlushAt := by
  refine ⟨?_, ?_, ?_⟩ <;> (simp only [flushOnFetchError]; all_goals (split <;> rfl))

/-- C1: when the network request of a flush fails, the removed batch is
prepended back onto the queue front — for a flush with no interleaved
pushes the queue afterwards equals the queue before the flush, in order,
nothing lost or duplicated — any pending scheduled flush is cancelled and
a flush is rescheduled with the 9000 ms backoff delay (not the normal
5000 ms); in general, for whatever state the tracker is in when the
rejection is handled (including events enqueued while the request was in
flight), the handler leaves the queue as the removed batch followed
exactly by the queue of that state. -/
theorem c1_requeue_and_backoff :
    (∀ (now : Int) (sizer : List Event → Except String Nat) (err : String)
        (s : TrackerState), s.queue ≠ [] →
      (flush false false now sizer (Except.error err) s).1.queue = s.queue ∧
      (flush false false now sizer (Except.error err) s).1.flushTimer =
        some 9000 ∧
      (flush false false now sizer (Except.error err) s).1.lastFlushAt = now) ∧
    (∀ (batch : List Event) (s : TrackerState),
      (flushOnFetchError batch s).queue = batch ++ s.queue ∧
      (flushOnFetchError batch s).flushTimer = some 9000) := by
  constructor
  · intro now sizer err s hne
    rw [flush_error_state now sizer err s hne]
    obtain ⟨hq, ht, hl⟩ := flushOnFetchError_fields (s.queue.take MAX_BATCH_SIZE)
      { s with queue := s.queue.drop MAX_BATCH_SIZE, lastFlushAt := now }
    refine ⟨?_, ht, by rw [hl]⟩
    rw [hq]
    exact List.take_append_drop MAX_BATCH_SIZE s.queue
  · intro batch s
    exact ⟨(flushOnFetchError_fields batch s).1,
      (flushOnFetchError_fields batch s).2.1⟩

/-- Witness for C1 at a concrete input: a failing flush of a one-event
queue restores the queue and schedules the 9000 ms backoff flush. -/
theorem c1_witness :
    stQ.queue ≠ [] ∧
    (flush false false 7 okSizer (Except.error "netfail") stQ).1.queue =
      stQ.queue ∧
    (flush false false 7 okSizer (Except.error "netfail") stQ).1.flushTimer =
      some 9000 ∧
    (flush false false 7 okSizer (Except.error "netfail") stQ).1.lastFlushAt =
      7 :=
  ⟨List.cons_ne_nil _ _,
    c1_requeue_and_backoff.1 7 okSizer "netfail" stQ (List.cons_ne_nil _ _)⟩

/-- C4: a flush of a non-empty queue removes at most 30 events from the
queue front as the batch (on a successful request exactly the first
`MAX_BATCH_SIZE` events leave the queue), and when the sized payload
exceeds 30000 bytes the attempted request body holds the trimmed form of
the batch, in which every event keeps its ts, type, task_id, session_id
and page and has its payload replaced by the fixed trimmed-note marker object. -/
theorem c4_batch_cap_and_trim :
    ∀ (now : Int) (sizer : List Event → Except String Nat)
      (fetchRes : Except String Unit) (s : TrackerState), s.queue ≠ [] →
      (s.queue.take MAX_BATCH_SIZE).length ≤ 30 ∧
      (fetchRes = Except.ok () →
        (flush false false now sizer fetchRes s).1.queue =
          s.queue.drop MAX_BATCH_SIZE) ∧
      (approxByteSize sizer (s.queue.take MAX_BATCH_SIZE) > MAX_PAYLOAD_BYTES →
        (flush false false now sizer fetchRes s).2 =
          some ((s.queue.take MAX_BATCH_SIZE).map trimmedEventJson)) ∧
      (∀ e : Event, trimmedEventJson e =
        [("ts", .str e.ts), ("type", .str e.type),
         ("task_id", jsOfOptStr e.task_id),
         ("session_id", jsOfOptStr e.session_id),
         ("payload", .obj [("note", .str "trimmed")]),
         ("page", .str e.page)]) := by
  intro now sizer fetchRes s hne
  refine ⟨?_, ?_, ?_, fun e => rfl⟩
  · simp only [List.length_take, MAX_BATCH_SIZE]
    omega
  · rintro rfl
    rw [flush_ok_state now sizer s hne]
  · intro hbig
    rw [flush_events_eq now sizer fetchRes s hne, if_pos hbig]

/-- Witness for C4 at a concrete input: an oversized one-event batch is
sent in trimmed form and removed from the queue. -/
theorem c4_witness :
    stQ.queue ≠ [] ∧
    (stQ.queue.take MAX_BATCH_SIZE).length ≤ 30 ∧
    (flush false false 3 bigSizer (Except.ok ()) stQ).1.queue =
      stQ.queue.drop MAX_BATCH_SIZE ∧
    (flush false false 3 bigSizer (Except.ok ()) stQ).2 =
      some ((stQ.queue.take MAX_BATCH_SIZE).map trimmedEventJson) := by
  obtain ⟨h1, h2, h3, _⟩ :=
    c4_batch_cap_and_trim 3 bigSizer (Except.ok ()) stQ (List.cons_ne_nil _ _)
  exact ⟨List.cons_ne_nil _ _, h1, h2 rfl, h3 (by decide)⟩

/-- C5 counterexample: the claim asserts both delivery forms carry a `ua`
field, but the trimmed form delivered for an oversized batch has exactly
the fields ts, type, task_id, session_id, payload, page — no `ua`. -/
theorem c5_counterexample :
    (flush false false 0 bigSizer (Except.ok ()) stQ).2 =
      some [trimmedEventJson ev0] ∧
    (trimmedEventJson ev0).map Prod.fst =
      ["ts", "type", "task_id", "session_id", "payload", "page"] ∧
    "ua" ∉ (trimmedEventJson ev0).map Prod.fst := by
  exact ⟨rfl, rfl, by decide⟩

/-- C5 amended: the events list of a delivered payload is determined by the
trim decision, and the field set of every delivered event object follows
it.  When the sized payload is within the 30000-byte cap, the delivered
list is exactly the untrimmed serialization of the batch and every event
object has exactly the fields ts, type, task_id, session_id, payload,
page, ua; when the sized payload exceeds the cap, the delivered list is
exactly the trimmed serialization and every event object has exactly the
fields ts, type, task_id, session_id, payload, page — the ua field is
omitted. -/
theorem c5_delivered_event_fields :
    ∀ (now : Int) (sizer : List Event → Except String Nat)
      (fetchRes : Except String Unit) (s : TrackerState)
      (evs : List (List (String × JsValue))), s.queue ≠ [] →
      (flush false false now sizer fetchRes s).2 = some evs →
      (approxByteSize sizer (s.queue.take MAX_BATCH_SIZE) ≤
          MAX_PAYLOAD_BYTES →
        evs = (s.queue.take MAX_BATCH_SIZE).map eventJson ∧
        ∀ o ∈ evs, o.map Prod.fst =
          ["ts", "type", "task_id", "session_id", "payload", "page", "ua"]) ∧
      (approxByteSize sizer (s.queue.take MAX_BATCH_SIZE) >
          MAX_PAYLOAD_BYTES →
        evs = (s.queue.take MAX_BATCH_SIZE).map trimmedEventJson ∧
        ∀ o ∈ evs, o.map Prod.fst =
          ["ts", "type", "task_id", "session_id", "payload", "page"]) := by
  intro now sizer fetchRes s evs hne hsome
  rw [flush_events_eq now sizer fetchRes s hne] at hsome
  have hevs := Option.some_injective _ hsome
  constructor
  · intro hle
    have hnotbig : ¬ approxByteSize sizer (s.queue.take MAX_BATCH_SIZE) >
        MAX_PAYLOAD_BYTES := by omega
    rw [if_neg hnotbig] at hevs
    subst hevs
    refine ⟨rfl, ?_⟩
    intro o ho
    obtain ⟨e, _, rfl⟩ := List.mem_map.1 ho
    rfl
  · intro hbig
    rw [if_pos hbig] at hevs
    subst hevs
    refine ⟨rfl, ?_⟩
    intro o ho
    obtain ⟨e, _, rfl⟩ := List.mem_map.1 ho
    rfl

/-- Witness for C5 (amended) at concrete inputs: with an in-cap sizer the
one-event batch is delivered untrimmed and its event object carries the
seven fields ending in ua; with an over-cap sizer it is delivered trimmed
and its event object carries the six fields without ua. -/
theorem c5_witness :
    stQ.queue ≠ [] ∧
    approxByteSize okSizer (stQ.queue.take MAX_BATCH_SIZE) ≤
      MAX_PAYLOAD_BYTES ∧
    [eventJson ev0] = (stQ.queue.take MAX_BATCH_SIZE).map eventJson ∧
    (∀ o ∈ [eventJson ev0], o.map Prod.fst =
      ["ts", "type", "task_id", "session_id", "payload", "page", "ua"]) ∧
    approxByteSize bigSizer (stQ.queue.take MAX_BATCH_SIZE) >
      MAX_PAYLOAD_BYTES ∧
    [trimmedEventJson ev0] =
      (stQ.queue.take MAX_BATCH_SIZE).map trimmedEventJson ∧
    (∀ o ∈ [trimmedEventJson ev0], o.map Prod.fst =
      ["ts", "type", "task_id", "session_id", "payload", "page"]) := by
  obtain ⟨hu1, hu2⟩ :=
    (c5_delivered_event_fields 0 okSizer (Except.ok ()) stQ [eventJson ev0]
      (List.cons_ne_nil _ _) rfl).1 (by decide)
  obtain ⟨ht1, ht2⟩ :=
    (c5_delivered_event_fields 0 bigSizer (Except.ok ()) stQ
      [trimmedEventJson ev0] (List.cons_ne_nil _ _) rfl).2 (by decide)
  exact ⟨List.cons_ne_nil _ _, by decide, hu1, hu2, by decide, ht1, ht2⟩



theorem enqueueEvent_queue_full (now : Int) (ts page ua type : String)
    (payload : Option JsValue) (sizer : List Event → Except String Nat)
    (s : TrackerState) (hq : s.queue.length = 29) :
    (enqueueEvent now ts page ua type payload sizer (Except.ok ())
      s).queue = [] := by
  simp only [enqueueEvent, MAX_BATCH_SIZE, ge_iff_le]
  split_ifs with h1 h2 h3 <;>
    first
      | (rw [flush_ok_state _ _ _ (by simp)]
         simp only [MAX_BATCH_SIZE]
         exact List.drop_eq_nil_of_le (by simp [hq]))
      | (exfalso; simp_all)

theorem startHeartbeat_queue (s : TrackerState) :
    (startHeartbeat s).queue = s.queue := by
  simp only [startHeartbeat, stopHeartbeat]
  all_goals (split <;> rfl)

theorem startHeartbeat_currentTaskId (s : TrackerState) :
    (startHeartbeat s).currentTaskId = s.currentTaskId := by
  simp only [startHeartbeat, stopHeartbeat]
  all_goals (split <;> rfl)

theorem startHeartbeat_lastTaskOpenedAt (s : TrackerState) :
    (startHeartbeat s).lastTaskOpenedAt = s.lastTaskOpenedAt := by
  simp only [startHeartbeat, stopHeartbeat]
  all_goals (split <;> rfl)

theorem startHeartbeat_heartbeatTimer (s : TrackerState) :
    (startHeartbeat s).heartbeatTimer = true := by
  simp [startHeartbeat]

set_option maxRecDepth 8000 in
/-- C6: an admitted push with no pending flush timer schedules a flush
after 5000 ms; a push that brings the queue to the 30-event batch size
triggers an immediate flush, so pushing onto a 29-event queue with a
successful request leaves the queue empty, and 30 admitted pushes from an
empty queue leave the queue empty. -/
theorem c6_flush_scheduling :
    (∀ (now : Int) (ts page ua type : String) (payload : Option JsValue)
        (sizer : List Event → Except String Nat)
        (fetchRes : Except String Unit) (s : TrackerState),
      (rateLimitCheck type (resetMinuteWindowIfNeeded now s).counters).1 =
        true →
      s.flushTimer = none → s.queue.length < 29 →
      (pushEvent now ts page ua type payload sizer fetchRes s).flushTimer =
        some FLUSH_INTERVAL_MS) ∧
    (∀ (now : Int) (ts page ua type : String) (payload : Option JsValue)
        (sizer : List Event → Except String Nat) (s : TrackerState),
      (rateLimitCheck type (resetMinuteWindowIfNeeded now s).counters).1 =
        true →
      s.queue.length = 29 →
      (pushEvent now ts page ua type payload sizer (Except.ok ()) s).queue =
        []) ∧
    (List.foldl (fun st _ => pushEvent 0 "t" "/p" "UA" "focus" none okSizer
        (Except.ok ()) st) st0 (List.range 30)).queue = [] := by
  refine ⟨?_, ?_, by rfl⟩
  · intro now ts page ua type payload sizer fetchRes s hadm ht hq
    simp only [pushEvent, hadm, if_true]
    rw [enqueueEvent_flushTimer_small]
    · simpa [resetWindow_queue] using hq
    · simpa [resetWindow_flushTimer] using ht
  · intro now ts page ua type payload sizer s hadm hq
    simp only [pushEvent, hadm, if_true]
    rw [enqueueEvent_queue_full]
    simpa [resetWindow_queue] using hq

/-- Witness for C6 at a concrete input: the first admitted push on a fresh
state schedules the 5000 ms flush. -/
theorem c6_witness :
    (rateLimitCheck "focus" (resetMinuteWindowIfNeeded 0 st0).counters).1 =
      true ∧
    st0.flushTimer = none ∧ st0.queue.length < 29 ∧
    (pushEvent 0 "t" "/p" "UA" "focus" none okSizer (Except.ok ())
      st0).flushTimer = some FLUSH_INTERVAL_MS :=
  ⟨by decide, rfl, by decide,
    c6_flush_scheduling.1 0 "t" "/p" "UA" "focus" none okSizer (Except.ok ())
      st0 (by decide) rfl (by decide)⟩



/-- C7 counterexample: with no previous task set (current task id null), a
setContext call supplying a different task id enqueues no
task_switch event at all — the queue stays empty — contradicting the
claim that this case emits one such event with seconds 0. -/
theorem c7_counterexample :
    st0.currentTaskId ≠ some "A" ∧
    (setContext 1000 "t" "/p" "UA" okSizer (Except.ok ()) none
      (some (some "A")) st0).queue = [] :=
  ⟨by decide, rfl⟩

/-- C7 amended: when a previous task id is set (truthy) and the supplied
task id differs from it, setContext enqueues exactly one task_switch event
carrying the previous and new task ids and the rounded non-negative
seconds spent on the previous task, with the event recorded before the
task id is updated; the task id is then updated and the task-opened
timestamp reset to now.  When no previous task id is set, no task_switch
event is enqueued and the task id and timestamp are simply updated. -/
theorem c7_task_switch :
    (∀ (now : Int) (ts page ua : String)
        (sizer : List Event → Except String Nat)
        (fetchRes : Except String Unit) (tid : Option String)
        (s : TrackerState),
      jsTruthyStr s.currentTaskId = true → s.currentTaskId ≠ tid →
      s.queue.length < 29 →
      (setContext now ts page ua sizer fetchRes none (some tid) s).queue =
        s.queue ++ [Event.mk ts "task_switch" s.currentTaskId
          s.currentSessionId
          (JsValue.obj [("from_task_id", jsOfOptStr s.currentTaskId),
            ("to_task_id", jsOfOptStr tid),
            ("seconds_spent",
              JsValue.num (max 0 (jsRound1000 (now - s.lastTaskOpenedAt))))])
          page ua] ∧
      (setContext now ts page ua sizer fetchRes none (some tid)
        s).currentTaskId = tid ∧
      (setContext now ts page ua sizer fetchRes none (some tid)
        s).lastTaskOpenedAt = now ∧
      0 ≤ max 0 (jsRound1000 (now - s.lastTaskOpenedAt))) ∧
    (∀ (now : Int) (ts page ua : String)
        (sizer : List Event → Except String Nat)
        (fetchRes : Except String Unit) (tid : Option String)
        (s : TrackerState),
      jsTruthyStr s.currentTaskId = false →
      (setContext now ts page ua sizer fetchRes none (some tid) s).queue =
        s.queue ∧
      (setContext now ts page ua sizer fetchRes none (some tid)
        s).currentTaskId = tid ∧
      (setContext now ts page ua sizer fetchRes none (some tid)
        s).lastTaskOpenedAt = now) := by
  constructor
  · intro now ts page ua sizer fetchRes tid s htr hne hq
    have hbne : (s.currentTaskId != tid) = true := by
      simpa [bne_iff_ne] using hne
    simp only [setContext, htr, hbne, Bool.and_self, if_true]
    refine ⟨?_, ?_, ?_, le_max_left 0 _⟩
    · rw [startHeartbeat_queue]
      have := pushEvent_queue_of_admitted now ts page ua "task_switch"
        (some (JsValue.obj [("from_task_id", jsOfOptStr s.currentTaskId),
          ("to_task_id", jsOfOptStr tid),
          ("seconds_spent",
            JsValue.num (max 0 (jsRound1000 (now - s.lastTaskOpenedAt))))]))
        sizer fetchRes s rfl hq
      simpa [jsOr, jsTruthy] using this
    · rw [startHeartbeat_currentTaskId]
    · rw [startHeartbeat_lastTaskOpenedAt]
  · intro now ts page ua sizer fetchRes tid s htr
    simp only [setContext, htr, Bool.false_and, if_false]
    exact ⟨startHeartbeat_queue _, by rw [startHeartbeat_currentTaskId],
      by rw [startHeartbeat_lastTaskOpenedAt]⟩

/-- Witness for C7 (amended) at a concrete input: switching from task T1
to task T2 2500 ms after it was opened enqueues one task_switch event
with seconds_spent 3 and resets the task context. -/
theorem c7_witness :
    jsTruthyStr stT.currentTaskId = true ∧ stT.currentTaskId ≠ some "T2" ∧
    stT.queue.length < 29 ∧
    (setContext 2500 "t" "/p" "UA" okSizer (Except.ok ()) none
      (some (some "T2")) stT).queue =
      stT.queue ++ [Event.mk "t" "task_switch" stT.currentTaskId
        stT.currentSessionId
        (JsValue.obj [("from_task_id", jsOfOptStr stT.currentTaskId),
          ("to_task_id", jsOfOptStr (some "T2")),
          ("seconds_spent",
            JsValue.num (max 0 (jsRound1000 (2500 - stT.lastTaskOpenedAt))))])
        "/p" "UA"] ∧
    (setContext 2500 "t" "/p" "UA" okSizer (Except.ok ()) none
      (some (some "T2")) stT).lastTaskOpenedAt = 2500 :=
  ⟨by decide, by decide, by decide,
    ((c7_task_switch.1 2500 "t" "/p" "UA" okSizer (Except.ok ()) (some "T2")
      stT (by decide) (by decide) (by decide))).1,
    ((c7_task_switch.1 2500 "t" "/p" "UA" okSizer (Except.ok ()) (some "T2")
      stT (by decide) (by decide) (by decide))).2.2.1⟩

/-- C8: a heartbeat tick with no active task (falsy current task id)
returns the state unchanged — no event is enqueued and no field is
mutated; with an active task it enqueues exactly one heartbeat event whose
seconds_on_task is the elapsed time since the task was opened, rounded to
whole seconds and floored at 0. -/
theorem c8_heartbeat_tick :
    (∀ (now : Int) (ts page ua : String)
        (sizer : List Event → Except String Nat)
        (fetchRes : Except String Unit) (s : TrackerState),
      jsTruthyStr s.currentTaskId = false →
      heartbeat now ts page ua sizer fetchRes s = s) ∧
    (∀ (now : Int) (ts page ua : String)
        (sizer : List Event → Except String Nat)
        (fetchRes : Except String Unit) (s : TrackerState),
      jsTruthyStr s.currentTaskId = true → s.queue.length < 29 →
      (heartbeat now ts page ua sizer fetchRes s).queue =
        s.queue ++ [Event.mk ts "heartbeat" s.currentTaskId
          s.currentSessionId
          (JsValue.obj [("seconds_on_task",
            JsValue.num (max 0 (jsRound1000 (now - s.lastTaskOpenedAt))))])
          page ua]) := by
  constructor
  · intro now ts page ua sizer fetchRes s htr
    simp [heartbeat, htr]
  · intro now ts page ua sizer fetchRes s htr hq
    simp only [heartbeat, htr, Bool.not_true, Bool.false_eq_true, if_false]
    have := pushEvent_queue_of_admitted now ts page ua "heartbeat"
      (some (JsValue.obj [("seconds_on_task",
        JsValue.num (max 0 (jsRound1000 (now - s.lastTaskOpenedAt))))]))
      sizer fetchRes s rfl hq
    simpa [jsOr, jsTruthy] using this

/-- Witness for C8 at concrete inputs: a tick with no task is the
identity, and a tick 9600 ms into task "T1" enqueues a heartbeat with
seconds_on_task 10. -/
theorem c8_witness :
    jsTruthyStr st0.currentTaskId = false ∧
    heartbeat 9600 "t" "/p" "UA" okSizer (Except.ok ()) st0 = st0 ∧
    jsTruthyStr stT.currentTaskId = true ∧ stT.queue.length < 29 ∧
    (heartbeat 9600 "t" "/p" "UA" okSizer (Except.ok ()) stT).queue =
      stT.queue ++ [Event.mk "t" "heartbeat" stT.currentTaskId
        stT.currentSessionId
        (JsValue.obj [("seconds_on_task",
          JsValue.num (max 0 (jsRound1000 (9600 - stT.lastTaskOpenedAt))))])
        "/p" "UA"] :=
  ⟨by decide,
    c8_heartbeat_tick.1 9600 "t" "/p" "UA" okSizer (Except.ok ()) st0
      (by decide),
    by decide, by decide,
    c8_heartbeat_tick.2 9600 "t" "/p" "UA" okSizer (Except.ok ()) stT
      (by decide) (by decide)⟩



/-- C9: failures inside the public entry points are absorbed rather than
raised.  A failing payload-size computation is caught and treated as size
0, so the batch is still sent — untrimmed; a network request that throws
or rejects leaves the tracker exactly in the requeue-and-backoff state
produced by the catch handler; and a rate-limited drop silently returns
with the queue unchanged. -/
theorem c9_failures_absorbed :
    (∀ (sizer : List Event → Except String Nat) (batch : List Event)
        (err : String),
      sizer batch = Except.error err → approxByteSize sizer batch = 0) ∧
    (∀ (now : Int) (sizer : List Event → Except String Nat) (err : String)
        (s : TrackerState), s.queue ≠ [] →
      sizer (s.queue.take MAX_BATCH_SIZE) = Except.error err →
      (flush false false now sizer (Except.ok ()) s).2 =
        some ((s.queue.take MAX_BATCH_SIZE).map eventJson)) ∧
    (∀ (now : Int) (sizer : List Event → Except String Nat) (err : String)
        (s : TrackerState), s.queue ≠ [] →
      (flush false false now sizer (Except.error err) s).1 =
        flushOnFetchError (s.queue.take MAX_BATCH_SIZE)
          { s with queue := s.queue.drop MAX_BATCH_SIZE,
                   lastFlushAt := now }) ∧
    (∀ (now : Int) (ts page ua type : String) (payload : Option JsValue)
        (sizer : List Event → Except String Nat)
        (fetchRes : Except String Unit) (s : TrackerState),
      (rateLimitCheck type (resetMinuteWindowIfNeeded now s).counters).1 =
        false →
      (pushEvent now ts page ua type payload sizer fetchRes s).queue =
        s.queue) := by
  refine ⟨?_, ?_, flush_error_state, pushEvent_queue_of_dropped⟩
  · intro sizer batch err h
    simp [approxByteSize, h]
  · intro now sizer err s hne hserr
    rw [flush_events_eq now sizer (Except.ok ()) s hne, if_neg]
    simp [approxByteSize, hserr]

/-- Witness for C9 at concrete inputs: a failing sizer reports size 0 and
the one-event batch is sent untrimmed; a failing request yields the
requeue-and-backoff state; an over-cap copy push leaves the queue
unchanged. -/
theorem c9_witness :
    badSizer [ev0] = Except.error "stringify failed" ∧
    approxByteSize badSizer [ev0] = 0 ∧
    stQ.queue ≠ [] ∧
    (flush false false 0 badSizer (Except.ok ()) stQ).2 =
      some ((stQ.queue.take MAX_BATCH_SIZE).map eventJson) ∧
    (flush false false 0 okSizer (Except.error "netfail") stQ).1 =
      flushOnFetchError (stQ.queue.take MAX_BATCH_SIZE)
        { stQ with queue := stQ.queue.drop MAX_BATCH_SIZE,
                   lastFlushAt := 0 } ∧
    (rateLimitCheck "copy"
      (resetMinuteWindowIfNeeded 0 stCapped).counters).1 = false ∧
    (pushEvent 0 "t" "/p" "UA" "copy" none okSizer (Except.ok ())
      stCapped).queue = stCapped.queue :=
  ⟨rfl,
    c9_failures_absorbed.1 badSizer [ev0] "stringify failed" rfl,
    List.cons_ne_nil _ _,
    c9_failures_absorbed.2.1 0 badSizer "stringify failed" stQ
      (List.cons_ne_nil _ _) rfl,
    c9_failures_absorbed.2.2.1 0 okSizer "netfail" stQ (List.cons_ne_nil _ _),
    by decide,
    c9_failures_absorbed.2.2.2 0 "t" "/p" "UA" "copy" none okSizer
      (Except.ok ()) stCapped (by decide)⟩

/-- C10: calling setContext with the task id already current emits no
task_switch event — the queue is unchanged — yet still resets the
task-opened timestamp to now, keeps the task id, and restarts the
heartbeat, so the dwell-time clock used by later heartbeat and
task_switch events restarts from this call. -/
theorem c10_same_task_resets_clock (now : Int) (ts page ua : String)
    (sizer : List Event → Except String Nat) (fetchRes : Except String Unit)
    (s : TrackerState) :
    (setContext now ts page ua sizer fetchRes none (some s.currentTaskId)
      s).queue = s.queue ∧
    (setContext now ts page ua sizer fetchRes none (some s.currentTaskId)
      s).currentTaskId = s.currentTaskId ∧
    (setContext now ts page ua sizer fetchRes none (some s.currentTaskId)
      s).lastTaskOpenedAt = now ∧
    (setContext now ts page ua sizer fetchRes none (some s.currentTaskId)
      s).heartbeatTimer = true := by
  simp only [setContext, bne_self_eq_false, Bool.and_false, Bool.false_eq_true,
    if_false]
  exact ⟨startHeartbeat_queue _, by rw [startHeartbeat_currentTaskId],
    by rw [startHeartbeat_lastTaskOpenedAt], startHeartbeat_heartbeatTimer _⟩



end StudentActivity
